import Mathlib

/-!
Verification of the multi-process RPC dispatcher (shahadul-17/dispatcher).

This file gives a shallow embedding, in Lean 4, of the parts of the
TypeScript source that the verified properties talk about:

  - the per-process inflight task counters
    (src/src/process/child-process.ts and parent-process.ts);
  - the framed stdio send operations of both process endpoints;
  - the least-busy worker selection and the dispatch entry point of the
    current Dispatcher revision (src/src/dispatcher.ts, second revision);
  - the queue-drainer dispatch path of the older Dispatcher revision
    (src/unnamed/part_000);
  - the worker-side request loop (src/src/dispatcher-child-process.ts);
  - the dispatcher lifecycle state machine (startAsync / stopAsync).

External packages from the @shahadul-17 scope (utilities, collections,
event-manager, service-provider) are collaborators of the repository and
are modelled by small Lean functions that follow their documented
behaviour at the call sites.  JavaScript numbers that the code only ever
holds integers in are modelled as Int; optional values as Option.
-/

/-- JavaScript values as far as the dispatcher inspects them: the payload
fields result and methodArguments carry arbitrary serialisable data. -/
inductive JsValue where
  | undef
  | null
  | bool (b : Bool)
  | num (n : Int)
  | str (s : String)
  | arr (elements : List JsValue)
  | obj (fields : List (String × JsValue))

/-- ObjectUtilities.isObject from the external utilities package: true for
object-typed values (plain objects and arrays), false for primitives. -/
def ObjectUtilities.isObject : JsValue → Bool
  | JsValue.obj _ => true
  | JsValue.arr _ => true
  | _ => false

/-- Reads a named field of a JavaScript object; undefined when the value is
not an object or lacks the field. -/
def JsValue.getField : JsValue → String → JsValue
  | JsValue.obj fields, name =>
    match fields.find? (fun field => field.1 == name) with
    | some field => field.2
    | none => JsValue.undef
  | _, _ => JsValue.undef

/-- Reads a field expected to hold a string, as the Error branch of the
dispatch callback does with result.message and result.stack; undefined and
non-string values are surfaced as none. -/
def JsValue.getStringField (value : JsValue) (name : String) : Option String :=
  match value.getField name with
  | JsValue.str s => some s
  | _ => none

/-- NumberUtilities.isPositiveNumber from the external utilities package:
true exactly when the argument is a number greater than zero (undefined and
non-positive values give false). -/
def NumberUtilities.isPositiveNumber : Option Int → Bool
  | some n => decide (0 < n)
  | none => false

/-- Drops leading and trailing whitespace; the character-list form of the
trimming the external StringUtilities performs. -/
def trimCharList (cs : List Char) : List Char :=
  ((cs.dropWhile Char.isWhitespace).reverse.dropWhile Char.isWhitespace).reverse

/-- StringUtilities.trim from the external utilities package. -/
def StringUtilities.trim (s : String) : String :=
  String.mk (trimCharList s.data)

/-- StringUtilities.isEmpty from the external utilities package. -/
def StringUtilities.isEmpty (s : String) : Bool :=
  s.data.isEmpty

/-- StringUtilities.isUndefinedOrNullOrEmpty with shallTrim: true when the
value is missing or (after trimming, if requested) the empty string. -/
def StringUtilities.isUndefinedOrNullOrEmpty (value : Option String) (shallTrim : Bool) : Bool :=
  match value with
  | none => true
  | some s => StringUtilities.isEmpty (if shallTrim then StringUtilities.trim s else s)

/-- StringUtilities.getDefaultIfUndefinedOrNullOrEmpty: the default when the
value is missing or blank, the value itself otherwise. -/
def StringUtilities.getDefaultIfUndefinedOrNullOrEmpty (value : Option String)
    (defaultValue : String) (shallTrim : Bool) : String :=
  if StringUtilities.isUndefinedOrNullOrEmpty value shallTrim then defaultValue
  else value.getD defaultValue

/-!
## Inflight task counters (C2 worker endpoint)

ChildProcess.incrementTaskCount / decrementTaskCount
(src/src/process/child-process.ts:45-70) and the identical pair on
ParentProcess (src/src/process/parent-process.ts:45-70).  The counter is a
JavaScript number, modelled as Int so that the clamping branch is visible.
-/

/-- incrementTaskCount(step): a missing or non-positive step is replaced by
1, then the counter is raised by the step. -/
def incrementTaskCount (taskCount : Int) (step : Option Int) : Int :=
  let step := if NumberUtilities.isPositiveNumber step then step.getD 1 else 1
  taskCount + step

/-- decrementTaskCount(step): a missing or non-positive step is replaced by
1, the counter is lowered by the step, and a negative result is clamped to
zero. -/
def decrementTaskCount (taskCount : Int) (step : Option Int) : Int :=
  let step := if NumberUtilities.isPositiveNumber step then step.getD 1 else 1
  let lowered := taskCount - step
  if lowered < 0 then 0 else lowered

/-- One call against the counter of a process endpoint. -/
inductive TaskCountOp where
  | increment (step : Option Int)
  | decrement (step : Option Int)

/-- Applies a single counter call. -/
def applyTaskCountOp (taskCount : Int) : TaskCountOp → Int
  | TaskCountOp.increment step => incrementTaskCount taskCount step
  | TaskCountOp.decrement step => decrementTaskCount taskCount step

/-- Runs a sequence of counter calls from a starting value; a fresh process
endpoint starts at 0. -/
def runTaskCountOps (taskCount : Int) (ops : List TaskCountOp) : Int :=
  ops.foldl applyTaskCountOp taskCount

/-!
## Framed sends (C1 frame codec / C2 worker endpoint)

ChildProcess.sendAsync (src/src/process/child-process.ts:201-220) and
ParentProcess.sendAsync (src/src/process/parent-process.ts:100-115).  Both
append the end-of-data marker and a newline to the serialised JSON text and
write the result to the stream.  The JSON serialiser is external; the model
takes the serialised text as input and returns the bytes written.
-/

/-- The framing sentinel shared by both endpoints. -/
def END_OF_DATA_MARKER : String := "<--- END OF DATA --->"

/-- Parent-side ChildProcess.sendAsync: none when the child has not spawned
yet (nothing is written and false is returned); otherwise the exact string
written to the stdin stream of the child. -/
def ChildProcessEndpoint.sendAsync (spawned : Bool) (dataAsJson : String) : Option String :=
  if spawned then some (dataAsJson ++ END_OF_DATA_MARKER ++ "\n") else none

/-- Worker-side ParentProcess.sendAsync: the exact string written to the
stdout stream. -/
def ParentProcessEndpoint.sendAsync (dataAsJson : String) : String :=
  dataAsJson ++ END_OF_DATA_MARKER ++ "\n"

/-!
## The current Dispatcher revision (src/src/dispatcher.ts:215-482)

State kept by the Dispatcher instance, restricted to the fields the
verified properties read: the two lifecycle flags, the configured process
count and the taskCount of each spawned worker (the worker list itself only
matters through these counters here).
-/

/-- The lifecycle flags and worker counters of a Dispatcher instance. -/
structure DispatcherState where
  isStarting : Bool
  isStartedFlag : Bool
  processCount : Nat
  taskCounts : List Int

/-- ServiceType values are class references; dispatchAsync only tests
typeof serviceType === "function" and reads serviceType.name. -/
structure ServiceType where
  isFunction : Bool
  name : String

/-- DispatchableTaskInformation (src/src/dispatchable-task-information.t.ts,
second revision): the returnType field carries no runtime data and is
omitted. -/
structure DispatchableTaskInformation where
  methodName : Option String
  methodArguments : Option (List JsValue)
  serviceType : ServiceType
  serviceScopeName : Option String

/-- The scan loop of Dispatcher.getLeastBusyProcess
(src/src/dispatcher.ts:267-287).  The for loop walks indices 1, 2, ... of
the process array; leastBusy is the index of the current candidate and
remaining is the sublist of taskCounts from index i, so that the head of
remaining is the taskCount the loop body reads.  The candidate is kept when
that taskCount is greater than or equal to the candidate taskCount, and
replaced otherwise. -/
def leastBusyScan (taskCounts : List Int) (leastBusy : Nat) (i : Nat) :
    List Int → Nat
  | [] => leastBusy
  | taskCount :: rest =>
    if taskCount ≥ taskCounts.getD leastBusy 0 then
      leastBusyScan taskCounts leastBusy (i + 1) rest
    else
      leastBusyScan taskCounts i (i + 1) rest

/-- Dispatcher.getLeastBusyProcess: starts with process 0 as the candidate,
scans the rest of the pool, increments the taskCount of the winner by 1
(through incrementTaskCount with no step) and returns it.  The result is
the selected index together with the updated counter list. -/
def getLeastBusyProcess (taskCounts : List Int) : Nat × List Int :=
  let leastBusy := leastBusyScan taskCounts 0 1 (taskCounts.drop 1)
  (leastBusy,
   taskCounts.set leastBusy (incrementTaskCount (taskCounts.getD leastBusy 0) none))

/-- What a call to dispatchAsync has done by the time the payload has been
handed to the worker endpoint: either the promise was rejected immediately
with the given message, or a response listener is registered and the
promise is pending on the selected process. -/
inductive DispatchOutcome where
  | rejected (message : String)
  | pending (processIndex : Nat)

/-- Dispatcher.dispatchAsync (src/src/dispatcher.ts:289-374) up to the send
of the payload.  The guards reject before any worker is touched; otherwise
the least busy process is selected (reserving a slot on it) and the payload
is sent.  isSent is the boolean returned by process.sendAsync; the source
awaits the call but never reads this value (line 372), which the model
makes visible by taking it as an argument that the result ignores. -/
def dispatchAsync (st : DispatcherState)
    (taskInformation : DispatchableTaskInformation) (isSent : Bool) :
    DispatchOutcome × DispatcherState :=
  if !st.isStartedFlag then
    (DispatchOutcome.rejected ("Dispatcher is not started yet."), st)
  else if !taskInformation.serviceType.isFunction then
    (DispatchOutcome.rejected ("No service provided."), st)
  else
    let methodName := StringUtilities.getDefaultIfUndefinedOrNullOrEmpty
      taskInformation.methodName ("") true
    if StringUtilities.isEmpty methodName then
      (DispatchOutcome.rejected ("Service method name not provided."), st)
    else
      let selected := getLeastBusyProcess st.taskCounts
      (DispatchOutcome.pending selected.1, { st with taskCounts := selected.2 })

/-- Dispatcher.get (src/src/dispatcher.ts:376-393): the proxy turns a
property read into a function that forwards its arguments to dispatchAsync
with the property as the method name.  The source guards methodArguments
with Array.isArray, which always holds for the rest-parameter array. -/
def getProxyInvoke (st : DispatcherState) (serviceType : ServiceType)
    (scopeName : Option String) (property : String) (args : List JsValue)
    (isSent : Bool) : DispatchOutcome × DispatcherState :=
  dispatchAsync st
    { serviceType := serviceType
      serviceScopeName := scopeName
      methodName := some property
      methodArguments := some args } isSent

/-- Outcome of one startAsync call. -/
inductive StartOutcome where
  | returned
  | started
  | threw

/-- Dispatcher.startAsync (src/src/dispatcher.ts:424-471): returns at once
when isStarting is already set; otherwise sets isStarting, spawns the pool
(spawnSucceeds abstracts the joint success of the spawn promises), and on
success stores the processes (each with taskCount 0) and sets the started
flag.  On failure isStarting is reset and the error rethrown; the started
flag and the process list are left untouched. -/
def startAsync (st : DispatcherState) (spawnSucceeds : Bool) :
    DispatcherState × StartOutcome :=
  if st.isStarting then (st, StartOutcome.returned)
  else if spawnSucceeds then
    ({ st with isStarting := true, isStartedFlag := true,
               taskCounts := List.replicate st.processCount 0 },
     StartOutcome.started)
  else
    ({ st with isStarting := false }, StartOutcome.threw)

/-- Dispatcher.stopAsync (src/src/dispatcher.ts:473-475): clears the
started flag and nothing else. -/
def stopAsync (st : DispatcherState) : DispatcherState :=
  { st with isStartedFlag := false }

/-- A lifecycle call made against the dispatcher. -/
inductive DispatcherLifecycleEvent where
  | start (spawnSucceeds : Bool)
  | stop

/-- Applies one lifecycle call. -/
def applyLifecycleEvent (st : DispatcherState) :
    DispatcherLifecycleEvent → DispatcherState
  | DispatcherLifecycleEvent.start spawnSucceeds => (startAsync st spawnSucceeds).1
  | DispatcherLifecycleEvent.stop => stopAsync st

/-- Runs a sequence of lifecycle calls. -/
def runLifecycleEvents (st : DispatcherState)
    (events : List DispatcherLifecycleEvent) : DispatcherState :=
  events.foldl applyLifecycleEvent st

/-!
## IPC payload schema and flags

The enum files dispatcher-ipc-payload-flag.e.ts and dispatcher-ipc-flag.e.ts
are imported by the source but are not among the provided sources.
-/

/-- Modelled from the spec: the flag enum file is missing from the sources;
spec section 6 fixes Dispatch = 1 (request or success response). -/
def DispatcherIpcPayloadFlag.Dispatch : Int := 1

/-- Modelled from the spec: the flag enum file is missing from the sources;
spec section 6 fixes Available = 2 (worker-initiated availability signal). -/
def DispatcherIpcPayloadFlag.Available : Int := 2

/-- Modelled from the spec: the flag enum file is missing from the sources;
spec section 6 fixes Error = 3. -/
def DispatcherIpcPayloadFlag.Error : Int := 3

/-- Modelled from the spec: the flag enum file is missing from the sources;
spec section 6 fixes Log = 4. -/
def DispatcherIpcPayloadFlag.Log : Int := 4

/-- DispatcherIpcPayload (src/src/dispatcher-ipc-payload.t.ts), the wire
record of the current revision. -/
structure DispatcherIpcPayload where
  flag : Int
  processId : Option Int
  payloadId : Option String
  result : JsValue
  serviceName : Option String
  serviceScopeName : Option String
  methodName : Option String
  methodArguments : Option (List JsValue)

/-- The wire record of the older revision (used by src/unnamed/part_000 and
src/src/dispatcher-child-process.ts): the request id field is named taskId
and the worker index field childProcessIndex.  The type declaration itself
is not among the provided sources; the field set is taken from its uses. -/
structure LegacyDispatcherIpcPayload where
  flag : Int
  taskId : String
  childProcessIndex : Int
  result : JsValue
  methodName : String
  serviceName : String
  methodArguments : Option (List JsValue)

/-!
## Worker-side loop (src/src/dispatcher-child-process.ts)
-/

/-- An error value thrown inside the worker, reduced to the two fields the
wire protocol keeps. -/
structure JsError where
  message : String
  stack : Option String

/-- A property of a registered service object: either an invocable method
(typeof function) or a plain data member. -/
inductive ServiceMember where
  | invocable (impl : List JsValue → Except JsError JsValue)
  | dataMember (value : JsValue)

/-- A service object as the worker sees it: its named members. -/
structure RegisteredService where
  members : List (String × ServiceMember)

/-- True when service[methodName] is an invocable function, the test at
src/src/dispatcher-child-process.ts:102. -/
def RegisteredService.isInvocableMember (service : RegisteredService)
    (methodName : String) : Bool :=
  match service.members.find? (fun member => member.1 == methodName) with
  | some (_, ServiceMember.invocable _) => true
  | _ => false

/-- Modelled from the spec: ObjectUtilities.sanitize is external; spec
section 4.3 says thrown errors are sanitised into an object carrying
message and optional stack. -/
def sanitizeError (error : JsError) : JsValue :=
  JsValue.obj (("message", JsValue.str error.message) ::
    (match error.stack with
     | some s => [("stack", JsValue.str s)]
     | none => []))

/-- The message built by the unknown-method branch of
DispatcherChildProcess.processIpcPayloadAsync
(src/src/dispatcher-child-process.ts:103). -/
def methodNotFoundMessage (methodName : String) : String :=
  "Requested method, \x27" ++ methodName ++ "\x27 was not found."

/-- Modelled from the spec: ServiceProvider.getByName is external; spec
section 4.3 says an unregistered service name is reported back as an Error
reply.  The exact message text is not fixed by the sources. -/
def serviceNotRegisteredMessage (serviceName : String) : String :=
  "Service \x27" ++ serviceName ++ "\x27 is not registered."

/-- DispatcherChildProcess.sendErrorAsync
(src/src/dispatcher-child-process.ts:139-157): wraps a sanitised error into
an Error-flagged payload; a missing taskId becomes the empty string. -/
def sendErrorPayload (childProcessIndex : Int) (error : JsError)
    (taskId : Option String) : LegacyDispatcherIpcPayload :=
  { flag := DispatcherIpcPayloadFlag.Error
    childProcessIndex := childProcessIndex
    result := sanitizeError error
    taskId := taskId.getD ("")
    methodName := ""
    serviceName := ""
    methodArguments := none }

/-- DispatcherChildProcess.processIpcPayloadAsync
(src/src/dispatcher-child-process.ts:96-125): on a Dispatch payload,
resolve the service, look up the method, invoke it and reply with the
result; every thrown error is caught and sent back through
sendErrorAsync.  The returned value is the reply payload written to the
parent (none for non-Dispatch flags, which the method ignores). -/
def processIpcPayload (serviceProvider : List (String × RegisteredService))
    (childProcessIndex : Int) (payload : LegacyDispatcherIpcPayload) :
    Option LegacyDispatcherIpcPayload :=
  if payload.flag = DispatcherIpcPayloadFlag.Dispatch then
    match serviceProvider.find? (fun entry => entry.1 == payload.serviceName) with
    | none =>
      some (sendErrorPayload childProcessIndex
        { message := serviceNotRegisteredMessage payload.serviceName, stack := none }
        (some payload.taskId))
    | some entry =>
      match entry.2.members.find? (fun member => member.1 == payload.methodName) with
      | some (_, ServiceMember.invocable impl) =>
        match impl (payload.methodArguments.getD []) with
        | Except.ok result =>
          some { flag := DispatcherIpcPayloadFlag.Dispatch
                 taskId := payload.taskId
                 childProcessIndex := childProcessIndex
                 result := result
                 methodName := ""
                 serviceName := ""
                 methodArguments := none }
        | Except.error error =>
          some (sendErrorPayload childProcessIndex error (some payload.taskId))
      | _ =>
        some (sendErrorPayload childProcessIndex
          { message := methodNotFoundMessage payload.methodName, stack := none }
          (some payload.taskId))
  else none

/-- The DataReceive branch of DispatcherChildProcess.onEventOccurredAsync
(src/src/dispatcher-child-process.ts:50-74): a payload with a positive flag
is enqueued at the back of the internal queue and an Available-flagged
payload echoing its taskId is immediately sent back; everything else is
dropped.  The result is the new queue together with the payload sent to
the parent, if any. -/
def onEventOccurredDataReceive (childProcessIndex : Int)
    (ipcPayloadQueue : List LegacyDispatcherIpcPayload)
    (data : Option LegacyDispatcherIpcPayload) :
    List LegacyDispatcherIpcPayload × Option LegacyDispatcherIpcPayload :=
  match data with
  | none => (ipcPayloadQueue, none)
  | some payload =>
    if NumberUtilities.isPositiveNumber (some payload.flag) = false then
      (ipcPayloadQueue, none)
    else
      (ipcPayloadQueue ++ [payload],
       some { flag := DispatcherIpcPayloadFlag.Available
              taskId := payload.taskId
              childProcessIndex := childProcessIndex
              result := JsValue.undef
              methodName := ""
              serviceName := ""
              methodArguments := none })

/-- One tick of DispatcherChildProcess.processIpcPayloadQueueAsync
(src/src/dispatcher-child-process.ts:159-178): requests are taken one at a
time from the front of the queue and processed through
processIpcPayloadAsync. -/
def processIpcPayloadQueueStep (serviceProvider : List (String × RegisteredService))
    (childProcessIndex : Int) (queue : List LegacyDispatcherIpcPayload) :
    List LegacyDispatcherIpcPayload × Option (Option LegacyDispatcherIpcPayload) :=
  match queue with
  | [] => ([], none)
  | payload :: rest =>
    (rest, some (processIpcPayload serviceProvider childProcessIndex payload))

/-!
## Response delivery to a waiting dispatch call (src/src/dispatcher.ts:321-369)

Each dispatchAsync call registers a one-shot DataReceive listener keyed by
the generated payloadId.  The listener either ignores the event, removes
itself without settling the promise, resolves, or rejects.
-/

/-- The value a dispatch promise is rejected with.  The current revision
builds a plain host Error (new Error(message), src/src/dispatcher.ts:357)
and only overwrites its stack when the received stack is non-empty; the
older revision (src/unnamed/part_000:180) instead throws the DispatcherError
subclass of src/src/dispatcher-error.ts, carrying the raw remote data. -/
inductive RejectedErrorValue where
  | hostError (message : String) (stack : Option String)
  | dispatcherError (data : JsValue)

/-- True exactly for values built through the DispatcherError subclass;
a plain host Error is not an instance of the subclass. -/
def RejectedErrorValue.isDispatcherError : RejectedErrorValue → Bool
  | RejectedErrorValue.hostError _ _ => false
  | RejectedErrorValue.dispatcherError _ => true

/-- The message carried by the rejection value.  For DispatcherError the
constructor (src/src/dispatcher-error.ts:6) passes data.message to the host
Error constructor. -/
def RejectedErrorValue.errorMessage : RejectedErrorValue → String
  | RejectedErrorValue.hostError message _ => message
  | RejectedErrorValue.dispatcherError data =>
    (data.getStringField ("message")).getD ("")

/-- The stack carried by the rejection value; none stands for the stack the
host generated at construction time.  DispatcherError overwrites its stack
with data.stack when present (src/src/dispatcher-error.ts:13). -/
def RejectedErrorValue.errorStack : RejectedErrorValue → Option String
  | RejectedErrorValue.hostError _ stack => stack
  | RejectedErrorValue.dispatcherError data => data.getStringField ("stack")

/-- What the per-dispatch DataReceive listener does with one event. -/
inductive DataReceiveAction where
  | ignored
  | removedOnly
  | resolve (result : JsValue)
  | reject (error : RejectedErrorValue)

/-- The per-dispatch DataReceive listener of Dispatcher.dispatchAsync
(src/src/dispatcher.ts:326-365), for the call whose generated id is
payloadId.  Non-object data and foreign payload ids are ignored; a matching
Dispatch payload resolves with its result; a matching Error payload rejects
with a freshly built host Error whose message defaults when result.message
is blank and whose stack is overwritten only when result.stack is
non-blank; any other matching flag removes the listener without settling
the promise. -/
def dataReceiveCallback (payloadId : String)
    (data : Option DispatcherIpcPayload) : DataReceiveAction :=
  match data with
  | none => DataReceiveAction.ignored
  | some payload =>
    if payload.payloadId ≠ some payloadId then DataReceiveAction.ignored
    else if payload.flag = DispatcherIpcPayloadFlag.Dispatch then
      DataReceiveAction.resolve payload.result
    else if payload.flag = DispatcherIpcPayloadFlag.Error then
      if ObjectUtilities.isObject payload.result = false then
        DataReceiveAction.reject (RejectedErrorValue.hostError
          ("An unexpected error occurred while executing the service method.") none)
      else
        let message := StringUtilities.getDefaultIfUndefinedOrNullOrEmpty
          (payload.result.getStringField ("message"))
          ("An unexpected error occurred while executing the service method.") true
        let stack := StringUtilities.getDefaultIfUndefinedOrNullOrEmpty
          (payload.result.getStringField ("stack")) ("") true
        DataReceiveAction.reject (RejectedErrorValue.hostError message
          (if StringUtilities.isEmpty stack then none else some stack))
    else DataReceiveAction.removedOnly

/-!
## The older Dispatcher revision (src/unnamed/part_000)

This revision keeps a pending queue of payloads and a periodic drainer.
Its per-worker state lives in three parallel arrays indexed by the worker
index: busy bits, task counts and the process handles.
-/

/-- The state of the older Dispatcher revision that the drainer touches. -/
structure OldDispatcherState where
  isStartedFlag : Bool
  childProcessesBusyStatus : List Bool
  childProcessesTaskCount : List Int
  ipcPayloadQueue : List LegacyDispatcherIpcPayload
  childProcessResponseMap : List (String × LegacyDispatcherIpcPayload)
  intervalCleared : Bool

/-- Map.set of the external collections package: later entries shadow
earlier ones. -/
def mapSet (m : List (String × LegacyDispatcherIpcPayload)) (key : String)
    (value : LegacyDispatcherIpcPayload) :
    List (String × LegacyDispatcherIpcPayload) :=
  (key, value) :: m

/-- Map.get of the external collections package. -/
def mapGet (m : List (String × LegacyDispatcherIpcPayload)) (key : String) :
    Option LegacyDispatcherIpcPayload :=
  (m.find? (fun entry => entry.1 == key)).map (fun entry => entry.2)

/-- The selection loop of Dispatcher.getNextAvailableChildProcessAsync
(src/unnamed/part_000:126-138).  The for loop reads the busy bit and the
task count of every index; pairs is the list of those pairs from index i
on.  Busy workers are skipped; a non-busy worker whose task count is at
most the running minimum (initially 0) becomes the candidate, so the
candidate ends on the last such index.  The candidate starts as -1. -/
def getNextAvailableChildLoop (i : Nat)
    (childIndexWithMinimumTaskCount minimumTaskCount : Int) :
    List (Bool × Int) → Int × Int
  | [] => (childIndexWithMinimumTaskCount, minimumTaskCount)
  | (isBusy, taskCount) :: rest =>
    if isBusy then
      getNextAvailableChildLoop (i + 1) childIndexWithMinimumTaskCount
        minimumTaskCount rest
    else if minimumTaskCount ≥ taskCount then
      getNextAvailableChildLoop (i + 1) (Int.ofNat i) taskCount rest
    else
      getNextAvailableChildLoop (i + 1) childIndexWithMinimumTaskCount
        minimumTaskCount rest

/-- Dispatcher.getNextAvailableChildProcessAsync
(src/unnamed/part_000:106-147): runs the selection loop; when a candidate
was found its busy bit is set and its task count incremented (the
reservation), and the updated arrays are returned with the index. -/
def getNextAvailableChildProcess (busyStatus : List Bool)
    (taskCounts : List Int) : Option (Nat × List Bool × List Int) :=
  let scan := getNextAvailableChildLoop 0 (-1) 0 (busyStatus.zip taskCounts)
  if scan.1 = -1 then none
  else
    let j := scan.1.toNat
    some (j, busyStatus.set j true, taskCounts.set j (taskCounts.getD j 0 + 1))

/-- The message of the communication failure reported when a send is
rejected (src/unnamed/part_000:319-325). -/
def communicationErrorMessage (childProcessIndex : Nat) : String :=
  "An error occurred while communicating to child process with index " ++
    toString childProcessIndex ++ "."

/-- The Error payload stored in the response map when a send is rejected
(src/unnamed/part_000:321-331): ObjectUtilities.clone is external and turns
the wrapped host Error into its serialisable fields. -/
def communicationErrorPayload (childProcessIndex : Nat)
    (ipcPayload : LegacyDispatcherIpcPayload) : LegacyDispatcherIpcPayload :=
  { flag := DispatcherIpcPayloadFlag.Error
    taskId := ipcPayload.taskId
    result := JsValue.obj
      [("data", JsValue.obj
        [("message", JsValue.str (communicationErrorMessage childProcessIndex))])]
    childProcessIndex := Int.ofNat childProcessIndex
    methodName := ipcPayload.methodName
    serviceName := ipcPayload.serviceName
    methodArguments := ipcPayload.methodArguments }

/-- One tick of Dispatcher.processIpcPayloadQueueAsync
(src/unnamed/part_000:281-332).  isSent is the boolean returned by
childProcess.sendAsync for the dequeued payload.  When the send is
rejected, the busy bit is cleared, the task count decremented (rolling the
reservation back) and an Error payload recording the communication failure
is stored in the response map under the taskId of the request, which the
waiting dispatchAsync call picks up. -/
def processIpcPayloadQueue (st : OldDispatcherState) (isSent : Bool) :
    OldDispatcherState :=
  if st.isStartedFlag = false then { st with intervalCleared := true }
  else
    match st.ipcPayloadQueue with
    | [] => st
    | ipcPayload :: rest =>
      match getNextAvailableChildProcess st.childProcessesBusyStatus
          st.childProcessesTaskCount with
      | none => st
      | some (j, busyStatus, taskCounts) =>
        if isSent then
          { st with childProcessesBusyStatus := busyStatus
                    childProcessesTaskCount := taskCounts
                    ipcPayloadQueue := rest }
        else
          { st with
              childProcessesBusyStatus := busyStatus.set j false
              childProcessesTaskCount := taskCounts.set j (taskCounts.getD j 0 - 1)
              ipcPayloadQueue := rest
              childProcessResponseMap :=
                mapSet st.childProcessResponseMap ipcPayload.taskId
                  (communicationErrorPayload j ipcPayload) }

/-- What the waiting dispatchAsync call of the older revision does once the
response for its taskId appears in the map (src/unnamed/part_000:177-183):
an Error flag makes it throw a DispatcherError built from the result. -/
inductive LegacyDispatchOutcome where
  | resolved (result : JsValue)
  | threwDispatcherError (data : JsValue)

/-- The response handling at the end of the older dispatchAsync
(src/unnamed/part_000:179-183). -/
def legacyDispatchResponse (response : LegacyDispatcherIpcPayload) :
    LegacyDispatchOutcome :=
  if response.flag = DispatcherIpcPayloadFlag.Error then
    LegacyDispatchOutcome.threwDispatcherError response.result
  else LegacyDispatchOutcome.resolved response.result

/-!
## Substring test

Used to state that the unknown-method message names the method.
-/

/-- True when the first list is an initial segment of the second. -/
def charListIsPrefixOf : List Char → List Char → Bool
  | [], _ => true
  | _ :: _, [] => false
  | p :: ps, c :: cs => p == c && charListIsPrefixOf ps cs

/-- True when pattern occurs as a contiguous run inside the list. -/
def charListContains (pattern : List Char) : List Char → Bool
  | [] => pattern.isEmpty
  | c :: rest =>
    charListIsPrefixOf pattern (c :: rest) || charListContains pattern rest

/-- True when pattern occurs as a contiguous substring of s. -/
def strContains (s pattern : String) : Bool :=
  charListContains pattern.toList s.toList

/-!
## Theorems
-/

theorem effectiveStep_pos (step : Option Int) :
    0 < (if NumberUtilities.isPositiveNumber step then step.getD 1 else 1) := by
  cases step with
  | none => simp [NumberUtilities.isPositiveNumber]
  | some n =>
    by_cases h : 0 < n
    · simpa [NumberUtilities.isPositiveNumber, h] using h
    · simp [NumberUtilities.isPositiveNumber, h]

theorem incrementTaskCount_nonneg (taskCount : Int) (step : Option Int)
    (h : 0 ≤ taskCount) : 0 ≤ incrementTaskCount taskCount step := by
  have hp := effectiveStep_pos step
  simp only [incrementTaskCount]
  omega

theorem decrementTaskCount_nonneg (taskCount : Int) (step : Option Int) :
    0 ≤ decrementTaskCount taskCount step := by
  simp only [decrementTaskCount]
  split <;> omega

theorem runTaskCountOps_nonneg (ops : List TaskCountOp) (taskCount : Int)
    (h : 0 ≤ taskCount) : 0 ≤ runTaskCountOps taskCount ops := by
  induction ops generalizing taskCount with
  | nil => simpa [runTaskCountOps]
  | cons op rest ih =>
    simp only [runTaskCountOps, List.foldl_cons] at *
    apply ih
    cases op with
    | increment step => exact incrementTaskCount_nonneg taskCount step h
    | decrement step => exact decrementTaskCount_nonneg taskCount step

/-- C7: starting from a fresh counter, any sequence of incrementTaskCount
and decrementTaskCount calls with arbitrary (possibly missing or
non-positive) step arguments keeps taskCount non-negative; a missing or
non-positive step acts as 1, and decrementTaskCount clamps at zero. -/
theorem taskCount_stays_nonneg :
    (∀ ops : List TaskCountOp, 0 ≤ runTaskCountOps 0 ops) ∧
    (∀ (taskCount : Int) (step : Option Int),
      NumberUtilities.isPositiveNumber step = false →
        incrementTaskCount taskCount step = taskCount + 1 ∧
        decrementTaskCount taskCount step =
          (if taskCount - 1 < 0 then 0 else taskCount - 1)) ∧
    (∀ (taskCount : Int) (step : Option Int),
      0 ≤ decrementTaskCount taskCount step) := by
  refine ⟨fun ops => runTaskCountOps_nonneg ops 0 le_rfl, ?_, decrementTaskCount_nonneg⟩
  intro taskCount step hstep
  constructor
  · simp [incrementTaskCount, hstep]
  · simp [decrementTaskCount, hstep]

/-- Witness for C7 at concrete inputs. -/
theorem taskCount_stays_nonneg_witness :
    (0 : Int) ≤ runTaskCountOps 0
      [TaskCountOp.decrement none, TaskCountOp.increment (some (-5)),
       TaskCountOp.decrement (some 3)] ∧
    NumberUtilities.isPositiveNumber (some (-5)) = false ∧
    incrementTaskCount 3 (some (-5)) = 3 + 1 ∧
    (0 : Int) ≤ decrementTaskCount 0 (some 7) :=
  ⟨taskCount_stays_nonneg.1 _, by decide,
   (taskCount_stays_nonneg.2.1 3 (some (-5)) (by decide)).1,
   taskCount_stays_nonneg.2.2 0 (some 7)⟩

/-- C6: every payload sent through a process endpoint, in either direction,
is written as the serialised JSON text immediately followed by the
delimiter string and a single newline. -/
theorem sendAsync_frames (dataAsJson : String) :
    (∀ (spawned : Bool) (bytes : String),
      ChildProcessEndpoint.sendAsync spawned dataAsJson = some bytes →
        bytes = dataAsJson ++ "<--- END OF DATA --->" ++ "\n") ∧
    ParentProcessEndpoint.sendAsync dataAsJson =
      dataAsJson ++ "<--- END OF DATA --->" ++ "\n" := by
  constructor
  · intro spawned bytes h
    cases spawned
    · simp [ChildProcessEndpoint.sendAsync] at h
    · simp [ChildProcessEndpoint.sendAsync, END_OF_DATA_MARKER] at h
      exact h.symm
  · rfl

/-- Witness for C6 at a concrete payload text. -/
theorem sendAsync_frames_witness :
    ChildProcessEndpoint.sendAsync true ("42") = some ("42<--- END OF DATA --->\n") ∧
    ("42<--- END OF DATA --->\n" : String) = "42" ++ "<--- END OF DATA --->" ++ "\n" :=
  ⟨by rfl, (sendAsync_frames ("42")).1 true ("42<--- END OF DATA --->\n") (by rfl)⟩

theorem leastBusyScan_spec (taskCounts : List Int) :
    ∀ (remaining : List Int) (i cand : Nat),
      remaining = taskCounts.drop i →
      cand < i →
      cand < taskCounts.length →
      (∀ k, k < i → taskCounts.getD cand 0 ≤ taskCounts.getD k 0) →
      (∀ k, k < cand → taskCounts.getD cand 0 < taskCounts.getD k 0) →
      leastBusyScan taskCounts cand i remaining < taskCounts.length ∧
      (∀ k, k < taskCounts.length →
        taskCounts.getD (leastBusyScan taskCounts cand i remaining) 0 ≤
          taskCounts.getD k 0) ∧
      (∀ k, k < leastBusyScan taskCounts cand i remaining →
        taskCounts.getD (leastBusyScan taskCounts cand i remaining) 0 <
          taskCounts.getD k 0) := by
  intro remaining
  induction remaining with
  | nil =>
    intro i cand hdrop hci hclen hmin hstrict
    have hlen : taskCounts.length ≤ i := List.drop_eq_nil_iff.mp hdrop.symm
    exact ⟨hclen, fun k hk => hmin k (Nat.lt_of_lt_of_le hk hlen), hstrict⟩
  | cons c rest ih =>
    intro i cand hdrop hci hclen hmin hstrict
    have hi : i < taskCounts.length := by
      by_contra hge
      push_neg at hge
      rw [List.drop_eq_nil_iff.mpr hge] at hdrop
      exact List.cons_ne_nil c rest hdrop
    have hcons := List.drop_eq_getElem_cons (l := taskCounts) (n := i) hi
    rw [← hdrop] at hcons
    have hc : c = taskCounts[i] := (List.cons.injEq _ _ _ _ ▸ hcons).1
    have hrest : rest = taskCounts.drop (i + 1) :=
      (List.cons.injEq _ _ _ _ ▸ hcons).2
    have hgetD : taskCounts.getD i 0 = c := by
      rw [List.getD_eq_getElem?_getD, List.getElem?_eq_getElem hi]
      exact hc.symm
    simp only [leastBusyScan]
    by_cases hcond : c ≥ taskCounts.getD cand 0
    · rw [if_pos hcond]
      refine ih (i + 1) cand hrest (Nat.lt_succ_of_lt hci) hclen ?_ hstrict
      intro k hk
      rcases Nat.lt_succ_iff_lt_or_eq.mp hk with hk | hk
      · exact hmin k hk
      · rw [hk, hgetD]
        exact hcond
    · rw [if_neg hcond]
      have hlt : c < taskCounts.getD cand 0 := lt_of_not_ge hcond
      refine ih (i + 1) i hrest (Nat.lt_succ_self i) hi ?_ ?_
      · intro k hk
        rcases Nat.lt_succ_iff_lt_or_eq.mp hk with hk | hk
        · rw [hgetD]
          exact le_of_lt (lt_of_lt_of_le hlt (hmin k hk))
        · rw [hk]
      · intro k hk
        rw [hgetD]
        exact lt_of_lt_of_le hlt (hmin k hk)

/-- C1: on a pool of at least one worker, getLeastBusyProcess returns the
worker whose taskCount is smallest, ties resolved in favour of the smallest
index (every earlier worker has a strictly larger count), and the returned
worker has its taskCount incremented by exactly 1 as the reservation. -/
theorem getLeastBusyProcess_correct (taskCounts : List Int)
    (h : taskCounts ≠ []) :
    (getLeastBusyProcess taskCounts).1 < taskCounts.length ∧
    (∀ k, k < taskCounts.length →
      taskCounts.getD (getLeastBusyProcess taskCounts).1 0 ≤
        taskCounts.getD k 0) ∧
    (∀ k, k < (getLeastBusyProcess taskCounts).1 →
      taskCounts.getD (getLeastBusyProcess taskCounts).1 0 <
        taskCounts.getD k 0) ∧
    (getLeastBusyProcess taskCounts).2 =
      taskCounts.set (getLeastBusyProcess taskCounts).1
        (taskCounts.getD (getLeastBusyProcess taskCounts).1 0 + 1) := by
  have hlen : 0 < taskCounts.length := List.length_pos.mpr h
  have hmain := leastBusyScan_spec taskCounts (taskCounts.drop 1) 1 0 rfl
    Nat.zero_lt_one hlen
    (fun k hk => by
      have hk0 : k = 0 := Nat.lt_one_iff.mp hk
      rw [hk0])
    (fun k hk => absurd hk (Nat.not_lt_zero k))
  refine ⟨?_, ?_, ?_, ?_⟩
  · simpa [getLeastBusyProcess] using hmain.1
  · simpa [getLeastBusyProcess] using hmain.2.1
  · simpa [getLeastBusyProcess] using hmain.2.2
  · simp [getLeastBusyProcess, incrementTaskCount, NumberUtilities.isPositiveNumber]

/-- Witness for C1 on the pool with taskCounts 2, 0, 1: worker 1 is chosen. -/
theorem getLeastBusyProcess_correct_witness :
    ([2, 0, 1] : List Int) ≠ [] ∧
    (getLeastBusyProcess [2, 0, 1]).1 < ([2, 0, 1] : List Int).length ∧
    ([2, 0, 1] : List Int).getD (getLeastBusyProcess [2, 0, 1]).1 0 ≤
      ([2, 0, 1] : List Int).getD 0 0 :=
  ⟨by decide, (getLeastBusyProcess_correct [2, 0, 1] (by decide)).1,
   (getLeastBusyProcess_correct [2, 0, 1] (by decide)).2.1 0 (by decide)⟩

/-- C5: whenever the dispatcher is not started, dispatchAsync rejects with
the NotStarted error and leaves the dispatcher state (in particular every
worker counter) untouched, regardless of the task or of what a send would
have returned. -/
theorem dispatchAsync_not_started (st : DispatcherState)
    (taskInformation : DispatchableTaskInformation) (isSent : Bool)
    (h : st.isStartedFlag = false) :
    dispatchAsync st taskInformation isSent =
      (DispatchOutcome.rejected ("Dispatcher is not started yet."), st) := by
  simp [dispatchAsync, h]

/-- Witness for C5 on a freshly constructed dispatcher. -/
theorem dispatchAsync_not_started_witness :
    ({ isStarting := false, isStartedFlag := false, processCount := 1,
       taskCounts := [] } : DispatcherState).isStartedFlag = false ∧
    dispatchAsync
      { isStarting := false, isStartedFlag := false, processCount := 1,
        taskCounts := [] }
      { methodName := some ("echo"), methodArguments := some [],
        serviceType := { isFunction := true, name := "EchoService" },
        serviceScopeName := none } true =
      (DispatchOutcome.rejected ("Dispatcher is not started yet."),
       { isStarting := false, isStartedFlag := false, processCount := 1,
         taskCounts := [] }) :=
  ⟨rfl, dispatchAsync_not_started _ _ _ rfl⟩

/-- C8: invoking a property f of the proxy returned by get with arguments
args is the same call as dispatchAsync on a task whose serviceType,
serviceScopeName, methodName and methodArguments are exactly the proxy
inputs, and both return the same result. -/
theorem get_proxy_dispatch_equiv (st : DispatcherState)
    (serviceType : ServiceType) (scopeName : Option String)
    (property : String) (args : List JsValue) (isSent : Bool) :
    ∃ taskInformation : DispatchableTaskInformation,
      taskInformation.serviceType = serviceType ∧
      taskInformation.serviceScopeName = scopeName ∧
      taskInformation.methodName = some property ∧
      taskInformation.methodArguments = some args ∧
      getProxyInvoke st serviceType scopeName property args isSent =
        dispatchAsync st taskInformation isSent :=
  ⟨{ serviceType := serviceType, serviceScopeName := scopeName,
     methodName := some property, methodArguments := some args },
   rfl, rfl, rfl, rfl, rfl⟩

theorem startAsync_while_starting (st : DispatcherState)
    (h : st.isStarting = true) (spawnSucceeds : Bool) :
    startAsync st spawnSucceeds = (st, StartOutcome.returned) := by
  simp [startAsync, h]

theorem runLifecycleEvents_frozen (events : List DispatcherLifecycleEvent) :
    ∀ st : DispatcherState, st.isStarting = true → st.isStartedFlag = false →
      (runLifecycleEvents st events).isStarting = true ∧
      (runLifecycleEvents st events).isStartedFlag = false := by
  induction events with
  | nil => exact fun st h hs => ⟨h, hs⟩
  | cons ev rest ih =>
    intro st h hs
    cases ev with
    | start spawnSucceeds =>
      have hstep : applyLifecycleEvent st (DispatcherLifecycleEvent.start spawnSucceeds) = st := by
        simp [applyLifecycleEvent, startAsync_while_starting st h]
      simpa [runLifecycleEvents, List.foldl_cons, hstep] using ih st h hs
    | stop =>
      have h1 : (stopAsync st).isStarting = true := h
      have h2 : (stopAsync st).isStartedFlag = false := rfl
      simpa [runLifecycleEvents, List.foldl_cons, applyLifecycleEvent] using
        ih (stopAsync st) h1 h2

/-- C9: a successful startAsync leaves isStarting set (it is only reset on
a spawn failure), so after a successful start followed by stopAsync every
further startAsync call returns immediately with the state unchanged, the
started flag stays false under every further sequence of lifecycle calls,
and the dispatcher can never be restarted. -/
theorem dispatcher_cannot_restart (st : DispatcherState)
    (h : st.isStarting = false) :
    (startAsync st true).2 = StartOutcome.started ∧
    ((startAsync st true).1).isStarting = true ∧
    ((startAsync st true).1).isStartedFlag = true ∧
    ((startAsync st false).1).isStarting = false ∧
    (∀ spawnSucceeds,
      startAsync (stopAsync (startAsync st true).1) spawnSucceeds =
        (stopAsync (startAsync st true).1, StartOutcome.returned)) ∧
    (∀ events : List DispatcherLifecycleEvent,
      (runLifecycleEvents (stopAsync (startAsync st true).1) events).isStartedFlag =
        false) := by
  have hstart : (startAsync st true).1.isStarting = true := by
    simp [startAsync, h]
  refine ⟨by simp [startAsync, h], hstart, by simp [startAsync, h], by simp [startAsync, h], ?_, ?_⟩
  · intro spawnSucceeds
    exact startAsync_while_starting (stopAsync (startAsync st true).1) hstart
      spawnSucceeds
  · intro events
    exact (runLifecycleEvents_frozen events (stopAsync (startAsync st true).1)
      hstart rfl).2

/-- Witness for C9: start, stop, then try to start again (successfully
spawning) and stop again; the dispatcher stays stopped. -/
theorem dispatcher_cannot_restart_witness :
    ({ isStarting := false, isStartedFlag := false, processCount := 2,
       taskCounts := [] } : DispatcherState).isStarting = false ∧
    ((startAsync
      { isStarting := false, isStartedFlag := false, processCount := 2,
        taskCounts := [] } true).1).isStartedFlag = true ∧
    (runLifecycleEvents
      (stopAsync (startAsync
        { isStarting := false, isStartedFlag := false, processCount := 2,
          taskCounts := [] } true).1)
      [DispatcherLifecycleEvent.start true,
       DispatcherLifecycleEvent.stop]).isStartedFlag = false :=
  ⟨rfl,
   (dispatcher_cannot_restart _ rfl).2.2.1,
   (dispatcher_cannot_restart _ rfl).2.2.2.2.2 _⟩

theorem charListIsPrefixOf_append (p t : List Char) :
    charListIsPrefixOf p (p ++ t) = true := by
  induction p with
  | nil => rfl
  | cons c cs ih => simp [charListIsPrefixOf, ih]

theorem charListContains_append_left (p pre s : List Char)
    (h : charListContains p s = true) :
    charListContains p (pre ++ s) = true := by
  induction pre with
  | nil => simpa using h
  | cons c rest ih => simp [charListContains, ih]

theorem charListContains_self_append (p t : List Char) :
    charListContains p (p ++ t) = true := by
  cases p with
  | nil => cases t <;> simp [charListContains, charListIsPrefixOf]
  | cons c cs =>
    have hpre := charListIsPrefixOf_append (c :: cs) t
    simp only [List.cons_append] at hpre
    simp [charListContains, hpre]

theorem strContains_append (pre mid suf : String) :
    strContains (pre ++ mid ++ suf) mid = true := by
  show charListContains mid.toList (pre ++ mid ++ suf).toList = true
  have hdata : (pre ++ mid ++ suf).toList =
      pre.toList ++ (mid.toList ++ suf.toList) := by
    simp [String.toList, List.append_assoc]
  rw [hdata]
  exact charListContains_append_left _ _ _
    (charListContains_self_append mid.toList suf.toList)

/-- C4 (amended): on a Dispatch payload naming a registered service and a
methodName that is not an invocable member of it, the worker replies with
an Error payload whose message contains the requested method name; the
message does not mention the service name. -/
theorem processIpcPayload_unknown_method
    (serviceProvider : List (String × RegisteredService))
    (childProcessIndex : Int) (payload : LegacyDispatcherIpcPayload)
    (entry : String × RegisteredService)
    (hflag : payload.flag = DispatcherIpcPayloadFlag.Dispatch)
    (hfound : serviceProvider.find? (fun e => e.1 == payload.serviceName) =
      some entry)
    (hnotinv : entry.2.isInvocableMember payload.methodName = false) :
    processIpcPayload serviceProvider childProcessIndex payload =
      some (sendErrorPayload childProcessIndex
        { message := methodNotFoundMessage payload.methodName, stack := none }
        (some payload.taskId)) ∧
    (sendErrorPayload childProcessIndex
        { message := methodNotFoundMessage payload.methodName, stack := none }
        (some payload.taskId)).flag = DispatcherIpcPayloadFlag.Error ∧
    strContains (methodNotFoundMessage payload.methodName)
      payload.methodName = true := by
  refine ⟨?_, rfl, ?_⟩
  · rcases hfind : entry.2.members.find?
        (fun member => member.1 == payload.methodName) with _ | ⟨name, member⟩
    · simp [processIpcPayload, hflag, hfound, hfind]
    · cases member with
      | invocable impl =>
        simp [RegisteredService.isInvocableMember, hfind] at hnotinv
      | dataMember value =>
        simp [processIpcPayload, hflag, hfound, hfind]
  · rw [methodNotFoundMessage]
    exact strContains_append ("Requested method, \x27") payload.methodName
      ("\x27 was not found.")

/-- Witness for C4 at a registered service carrying only a data member. -/
theorem processIpcPayload_unknown_method_witness :
    ({ flag := 1, taskId := "t9", childProcessIndex := -1,
       result := JsValue.undef, methodName := "run",
       serviceName := "JobService", methodArguments := none } :
        LegacyDispatcherIpcPayload).flag = DispatcherIpcPayloadFlag.Dispatch ∧
    strContains (methodNotFoundMessage ("run")) ("run") = true :=
  ⟨rfl,
   (processIpcPayload_unknown_method
     [("JobService",
       { members := [("runs", ServiceMember.dataMember (JsValue.num 4))] })]
     7
     { flag := 1, taskId := "t9", childProcessIndex := -1,
       result := JsValue.undef, methodName := "run",
       serviceName := "JobService", methodArguments := none }
     ("JobService",
       { members := [("runs", ServiceMember.dataMember (JsValue.num 4))] })
     rfl rfl rfl).2.2⟩

/-- C4 counterexample: for the registered service MyService and the unknown
method does_not_exist, the reply message contains the method name but not
the service name, refuting the claim that it contains both. -/
theorem processIpcPayload_message_lacks_service_name :
    ((processIpcPayload [("MyService", { members := [] })] (-1)
        { flag := 1, taskId := "t1", childProcessIndex := -1,
          result := JsValue.undef, methodName := "does_not_exist",
          serviceName := "MyService", methodArguments := none }).map
      (fun reply => reply.flag)) = some 3 ∧
    ((processIpcPayload [("MyService", { members := [] })] (-1)
        { flag := 1, taskId := "t1", childProcessIndex := -1,
          result := JsValue.undef, methodName := "does_not_exist",
          serviceName := "MyService", methodArguments := none }).map
      (fun reply => reply.result.getStringField ("message"))) =
      some (some ("Requested method, \x27does_not_exist\x27 was not found.")) ∧
    strContains ("Requested method, \x27does_not_exist\x27 was not found.")
      ("does_not_exist") = true ∧
    strContains ("Requested method, \x27does_not_exist\x27 was not found.")
      ("MyService") = false :=
  ⟨rfl, rfl, by decide, by decide⟩

/-- C10: every payload with a positive flag received by the worker loop is
first appended to the back of the internal queue (processing dequeues from
the front in a later tick) and an Available-flagged payload echoing the
incoming taskId is immediately sent back, unconditionally. -/
theorem onEventOccurred_enqueue_then_ack (childProcessIndex : Int)
    (ipcPayloadQueue : List LegacyDispatcherIpcPayload)
    (payload : LegacyDispatcherIpcPayload) (h : 0 < payload.flag) :
    onEventOccurredDataReceive childProcessIndex ipcPayloadQueue (some payload) =
      (ipcPayloadQueue ++ [payload],
       some { flag := DispatcherIpcPayloadFlag.Available
              taskId := payload.taskId
              childProcessIndex := childProcessIndex
              result := JsValue.undef
              methodName := ""
              serviceName := ""
              methodArguments := none }) ∧
    DispatcherIpcPayloadFlag.Available = 2 ∧
    (ipcPayloadQueue ++ [payload]).getLast? = some payload := by
  have hpos : NumberUtilities.isPositiveNumber (some payload.flag) = true := by
    simpa [NumberUtilities.isPositiveNumber] using h
  refine ⟨?_, rfl, List.getLast?_concat ipcPayloadQueue⟩
  simp [onEventOccurredDataReceive, hpos]

/-- Witness for C10 at a concrete Dispatch payload. -/
theorem onEventOccurred_enqueue_then_ack_witness :
    (0 : Int) <
      ({ flag := 1, taskId := "t2", childProcessIndex := -1,
         result := JsValue.undef, methodName := "m", serviceName := "s",
         methodArguments := none } : LegacyDispatcherIpcPayload).flag ∧
    onEventOccurredDataReceive 0 []
      (some { flag := 1, taskId := "t2", childProcessIndex := -1,
              result := JsValue.undef, methodName := "m", serviceName := "s",
              methodArguments := none }) =
      ([{ flag := 1, taskId := "t2", childProcessIndex := -1,
          result := JsValue.undef, methodName := "m", serviceName := "s",
          methodArguments := none }],
       some { flag := DispatcherIpcPayloadFlag.Available, taskId := "t2",
              childProcessIndex := 0, result := JsValue.undef,
              methodName := "", serviceName := "",
              methodArguments := none }) :=
  ⟨by decide,
   by
    have hmain := (onEventOccurred_enqueue_then_ack 0 []
      { flag := 1, taskId := "t2", childProcessIndex := -1,
        result := JsValue.undef, methodName := "m", serviceName := "s",
        methodArguments := none } (by decide)).1
    simpa using hmain⟩

theorem trim_nonempty_imp_nonempty (s : String)
    (h : StringUtilities.isEmpty (StringUtilities.trim s) = false) :
    StringUtilities.isEmpty s = false := by
  cases hd : s.data with
  | nil =>
    rw [StringUtilities.isEmpty, StringUtilities.trim, trimCharList, hd] at h
    simp at h
  | cons c cs => simp [StringUtilities.isEmpty, hd]

/-- C3 (amended): when the worker reports a failure whose sanitised error
carries a non-blank message m and a non-blank stack S, the waiting dispatch
callback rejects with a plain host Error (not the DispatcherError subclass,
which only the older revision throws) whose message equals m and whose
stack equals S. -/
theorem dataReceiveCallback_error_surfaced (payloadId m S : String)
    (hm : StringUtilities.isEmpty (StringUtilities.trim m) = false)
    (hS : StringUtilities.isEmpty (StringUtilities.trim S) = false) :
    dataReceiveCallback payloadId (some
      { flag := DispatcherIpcPayloadFlag.Error, processId := some 0,
        payloadId := some payloadId,
        result := sanitizeError { message := m, stack := some S },
        serviceName := none, serviceScopeName := none, methodName := none,
        methodArguments := none }) =
      DataReceiveAction.reject (RejectedErrorValue.hostError m (some S)) ∧
    (RejectedErrorValue.hostError m (some S)).errorMessage = m ∧
    (RejectedErrorValue.hostError m (some S)).errorStack = some S ∧
    (RejectedErrorValue.hostError m (some S)).isDispatcherError = false := by
  have hSne : StringUtilities.isEmpty S = false := trim_nonempty_imp_nonempty S hS
  refine ⟨?_, rfl, rfl, rfl⟩
  simp [dataReceiveCallback, sanitizeError, ObjectUtilities.isObject,
    JsValue.getStringField, JsValue.getField,
    StringUtilities.getDefaultIfUndefinedOrNullOrEmpty,
    StringUtilities.isUndefinedOrNullOrEmpty,
    DispatcherIpcPayloadFlag.Error, DispatcherIpcPayloadFlag.Dispatch,
    hm, hS, hSne, List.find?]

/-- Witness for C3 at a concrete remote failure. -/
theorem dataReceiveCallback_error_surfaced_witness :
    StringUtilities.isEmpty (StringUtilities.trim ("remote failure")) = false ∧
    StringUtilities.isEmpty (StringUtilities.trim ("at Object.fail")) = false ∧
    dataReceiveCallback ("payload-7") (some
      { flag := DispatcherIpcPayloadFlag.Error, processId := some 0,
        payloadId := some ("payload-7"),
        result := sanitizeError
          { message := "remote failure", stack := some ("at Object.fail") },
        serviceName := none, serviceScopeName := none, methodName := none,
        methodArguments := none }) =
      DataReceiveAction.reject
        (RejectedErrorValue.hostError ("remote failure")
          (some ("at Object.fail"))) :=
  ⟨by decide, by decide,
   (dataReceiveCallback_error_surfaced ("payload-7") ("remote failure")
     ("at Object.fail") (by decide) (by decide)).1⟩

/-- C3 counterexample: for the worker error with message boom and stack S,
the callback rejects with a plain host Error value; it is not an instance
of the DispatcherError subclass, refuting the claim that the promise
rejects with a DispatcherError. -/
theorem dataReceiveCallback_rejects_plain_error :
    dataReceiveCallback ("payload-1") (some
      { flag := DispatcherIpcPayloadFlag.Error, processId := some 0,
        payloadId := some ("payload-1"),
        result := sanitizeError { message := "boom", stack := some ("S") },
        serviceName := none, serviceScopeName := none, methodName := none,
        methodArguments := none }) =
      DataReceiveAction.reject
        (RejectedErrorValue.hostError ("boom") (some ("S"))) ∧
    RejectedErrorValue.isDispatcherError
      (RejectedErrorValue.hostError ("boom") (some ("S"))) = false := by
  exact ⟨rfl, rfl⟩

theorem getNextAvailableChildLoop_bound :
    ∀ (pairs : List (Bool × Int)) (i : Nat) (cand minCount : Int),
      (cand = -1 ∨ ∃ m : Nat, cand = Int.ofNat m ∧ m < i) →
      ((getNextAvailableChildLoop i cand minCount pairs).1 = -1 ∨
        ∃ m : Nat, (getNextAvailableChildLoop i cand minCount pairs).1 =
          Int.ofNat m ∧ m < i + pairs.length) := by
  intro pairs
  induction pairs with
  | nil =>
    intro i cand minCount h
    rcases h with h | ⟨m, hm, hmi⟩
    · exact Or.inl h
    · exact Or.inr ⟨m, hm, by simp only [List.length_nil]; omega⟩
  | cons pair rest ih =>
    intro i cand minCount h
    obtain ⟨isBusy, taskCount⟩ := pair
    have hkeep : cand = -1 ∨ ∃ m : Nat, cand = Int.ofNat m ∧ m < i + 1 := by
      rcases h with h | ⟨m, hm, hmi⟩
      · exact Or.inl h
      · exact Or.inr ⟨m, hm, Nat.lt_succ_of_lt hmi⟩
    cases isBusy with
    | true =>
      simp only [getNextAvailableChildLoop, if_pos]
      rcases ih (i + 1) cand minCount hkeep with h1 | ⟨m, hm, hb⟩
      · exact Or.inl h1
      · refine Or.inr ⟨m, hm, ?_⟩
        simp only [List.length_cons]
        omega
    | false =>
      simp only [getNextAvailableChildLoop]
      rw [if_neg (by simp)]
      by_cases hge : minCount ≥ taskCount
      · rw [if_pos hge]
        rcases ih (i + 1) (Int.ofNat i) taskCount
            (Or.inr ⟨i, rfl, Nat.lt_succ_self i⟩) with h1 | ⟨m, hm, hb⟩
        · exact Or.inl h1
        · refine Or.inr ⟨m, hm, ?_⟩
          simp only [List.length_cons]
          omega
      · rw [if_neg hge]
        rcases ih (i + 1) cand minCount hkeep with h1 | ⟨m, hm, hb⟩
        · exact Or.inl h1
        · refine Or.inr ⟨m, hm, ?_⟩
          simp only [List.length_cons]
          omega

theorem getNextAvailableChildProcess_some (busyStatus : List Bool)
    (taskCounts : List Int) (j : Nat) (busyAfter : List Bool)
    (countsAfter : List Int)
    (h : getNextAvailableChildProcess busyStatus taskCounts =
      some (j, busyAfter, countsAfter)) :
    j < busyStatus.length ∧ j < taskCounts.length ∧
    busyAfter = busyStatus.set j true ∧
    countsAfter = taskCounts.set j (taskCounts.getD j 0 + 1) := by
  by_cases hneg :
      (getNextAvailableChildLoop 0 (-1) 0 (busyStatus.zip taskCounts)).1 = -1
  · simp only [getNextAvailableChildProcess] at h
    rw [if_pos hneg] at h
    exact Option.noConfusion h
  · rcases getNextAvailableChildLoop_bound (busyStatus.zip taskCounts) 0 (-1) 0
        (Or.inl rfl) with h1 | ⟨m, hm, hb⟩
    · exact absurd h1 hneg
    · simp only [getNextAvailableChildProcess] at h
      rw [if_neg hneg, hm] at h
      simp only [Int.toNat_ofNat, Option.some.injEq, Prod.mk.injEq] at h
      obtain ⟨hj, hbusy, hcounts⟩ := h
      rw [List.length_zip] at hb
      subst hj
      have hb1 : m < busyStatus.length := by omega
      have hb2 : m < taskCounts.length := by omega
      exact ⟨hb1, hb2, hbusy.symm, hcounts.symm⟩

/-- C2 (amended): in the queue-drainer revision, when sendAsync returns
false for the dequeued payload the reservation made at selection time is
rolled back (the busy bit is cleared and the task count of worker j is
restored to its value before selection) and an Error-flagged payload
recording the communication failure is stored under the taskId of the
request, on which the waiting dispatchAsync call throws a DispatcherError.
The current revision ignores the boolean returned by sendAsync, so there
the rollback and the failure do not happen (see the counterexample). -/
theorem processIpcPayloadQueue_send_failure (st : OldDispatcherState)
    (ipcPayload : LegacyDispatcherIpcPayload)
    (rest : List LegacyDispatcherIpcPayload)
    (j : Nat) (busyAfter : List Bool) (countsAfter : List Int)
    (hstarted : st.isStartedFlag = true)
    (hqueue : st.ipcPayloadQueue = ipcPayload :: rest)
    (hsel : getNextAvailableChildProcess st.childProcessesBusyStatus
      st.childProcessesTaskCount = some (j, busyAfter, countsAfter)) :
    (processIpcPayloadQueue st false).childProcessesTaskCount.getD j 0 =
      st.childProcessesTaskCount.getD j 0 ∧
    (processIpcPayloadQueue st false).childProcessesBusyStatus.getD j false =
      false ∧
    mapGet (processIpcPayloadQueue st false).childProcessResponseMap
      ipcPayload.taskId = some (communicationErrorPayload j ipcPayload) ∧
    (communicationErrorPayload j ipcPayload).flag =
      DispatcherIpcPayloadFlag.Error ∧
    legacyDispatchResponse (communicationErrorPayload j ipcPayload) =
      LegacyDispatchOutcome.threwDispatcherError
        (JsValue.obj [("data", JsValue.obj [("message",
          JsValue.str (communicationErrorMessage j))])]) := by
  obtain ⟨hjb, hjc, hbA, hcA⟩ :=
    getNextAvailableChildProcess_some _ _ _ _ _ hsel
  subst hbA
  subst hcA
  have hred : processIpcPayloadQueue st false =
      { st with
          childProcessesBusyStatus :=
            (st.childProcessesBusyStatus.set j true).set j false
          childProcessesTaskCount :=
            (st.childProcessesTaskCount.set j
                (st.childProcessesTaskCount.getD j 0 + 1)).set j
              ((st.childProcessesTaskCount.set j
                  (st.childProcessesTaskCount.getD j 0 + 1)).getD j 0 - 1)
          ipcPayloadQueue := rest
          childProcessResponseMap :=
            mapSet st.childProcessResponseMap ipcPayload.taskId
              (communicationErrorPayload j ipcPayload) } := by
    rw [processIpcPayloadQueue, hstarted, hqueue, hsel]
    simp
  have hgetD : (st.childProcessesTaskCount.set j
      (st.childProcessesTaskCount.getD j 0 + 1)).getD j 0 =
      st.childProcessesTaskCount.getD j 0 + 1 := by
    rw [List.getD_eq_getElem?_getD, List.getElem?_set_self hjc]
    rfl
  refine ⟨?_, ?_, ?_, rfl, rfl⟩
  · rw [hred]
    simp only [hgetD, List.set_set, Int.add_sub_cancel]
    rw [List.getD_eq_getElem?_getD, List.getElem?_set_self hjc,
      Option.getD_some, List.getD_eq_getElem?_getD,
      List.getElem?_eq_getElem hjc, Option.getD_some]
  · rw [hred]
    simp only [List.set_set]
    rw [List.getD_eq_getElem?_getD, List.getElem?_set_self hjb]
    rfl
  · rw [hred]
    simp [mapGet, mapSet]

/-- Witness for C2 on a one-worker pool with a single queued request whose
send is rejected. -/
theorem processIpcPayloadQueue_send_failure_witness :
    ({ isStartedFlag := true
       childProcessesBusyStatus := [false]
       childProcessesTaskCount := [0]
       ipcPayloadQueue := [{ flag := 1
                             taskId := "task-1"
                             childProcessIndex := -1
                             result := JsValue.undef
                             methodName := "echo"
                             serviceName := "EchoService"
                             methodArguments := none }]
       childProcessResponseMap := []
       intervalCleared := false } : OldDispatcherState).isStartedFlag = true ∧
    (processIpcPayloadQueue
      { isStartedFlag := true
        childProcessesBusyStatus := [false]
        childProcessesTaskCount := [0]
        ipcPayloadQueue := [{ flag := 1
                              taskId := "task-1"
                              childProcessIndex := -1
                              result := JsValue.undef
                              methodName := "echo"
                              serviceName := "EchoService"
                              methodArguments := none }]
        childProcessResponseMap := []
        intervalCleared := false }
      false).childProcessesTaskCount.getD 0 0 = ([0] : List Int).getD 0 0 ∧
    mapGet (processIpcPayloadQueue
      { isStartedFlag := true
        childProcessesBusyStatus := [false]
        childProcessesTaskCount := [0]
        ipcPayloadQueue := [{ flag := 1
                              taskId := "task-1"
                              childProcessIndex := -1
                              result := JsValue.undef
                              methodName := "echo"
                              serviceName := "EchoService"
                              methodArguments := none }]
        childProcessResponseMap := []
        intervalCleared := false }
      false).childProcessResponseMap ("task-1") =
      some (communicationErrorPayload 0
        { flag := 1
          taskId := "task-1"
          childProcessIndex := -1
          result := JsValue.undef
          methodName := "echo"
          serviceName := "EchoService"
          methodArguments := none }) :=
  ⟨rfl,
   (processIpcPayloadQueue_send_failure
     { isStartedFlag := true
       childProcessesBusyStatus := [false]
       childProcessesTaskCount := [0]
       ipcPayloadQueue := [{ flag := 1
                             taskId := "task-1"
                             childProcessIndex := -1
                             result := JsValue.undef
                             methodName := "echo"
                             serviceName := "EchoService"
                             methodArguments := none }]
       childProcessResponseMap := []
       intervalCleared := false }
     { flag := 1
       taskId := "task-1"
       childProcessIndex := -1
       result := JsValue.undef
       methodName := "echo"
       serviceName := "EchoService"
       methodArguments := none }
     [] 0 [true] [1] rfl rfl rfl).1,
   (processIpcPayloadQueue_send_failure
     { isStartedFlag := true
       childProcessesBusyStatus := [false]
       childProcessesTaskCount := [0]
       ipcPayloadQueue := [{ flag := 1
                             taskId := "task-1"
                             childProcessIndex := -1
                             result := JsValue.undef
                             methodName := "echo"
                             serviceName := "EchoService"
                             methodArguments := none }]
       childProcessResponseMap := []
       intervalCleared := false }
     { flag := 1
       taskId := "task-1"
       childProcessIndex := -1
       result := JsValue.undef
       methodName := "echo"
       serviceName := "EchoService"
       methodArguments := none }
     [] 0 [true] [1] rfl rfl rfl).2.2.1⟩

/-- C2 counterexample: in the current revision, a dispatch whose send is
rejected keeps the taskCount reservation (worker 0 stays at 1, not rolled
back to 0) and the call is left pending rather than failed; the result of
dispatchAsync does not depend on the boolean sendAsync returned. -/
theorem dispatchAsync_ignores_send_result :
    dispatchAsync
      { isStarting := true
        isStartedFlag := true
        processCount := 1
        taskCounts := [0] }
      { methodName := some ("echo")
        methodArguments := some []
        serviceType := { isFunction := true, name := "EchoService" }
        serviceScopeName := none } false =
      (DispatchOutcome.pending 0,
       { isStarting := true
         isStartedFlag := true
         processCount := 1
         taskCounts := [1] }) ∧
    dispatchAsync
      { isStarting := true
        isStartedFlag := true
        processCount := 1
        taskCounts := [0] }
      { methodName := some ("echo")
        methodArguments := some []
        serviceType := { isFunction := true, name := "EchoService" }
        serviceScopeName := none } false =
    dispatchAsync
      { isStarting := true
        isStartedFlag := true
        processCount := 1
        taskCounts := [0] }
      { methodName := some ("echo")
        methodArguments := some []
        serviceType := { isFunction := true, name := "EchoService" }
        serviceScopeName := none } true :=
  ⟨rfl, rfl⟩
